import Mathlib

/-!
Shallow embedding of `projects/_003_ask_your_spreadsheets/index.py`.

The program loads uploaded CSV files into an in-memory SQLite database
(`step_1`), renders a textual schema description of the store
(`get_table_schemas_with_data`), and executes generated SQL against it
(`execute_sql_statement`, driven from `step_2`).

Modelling choices:
* the store (the SQLite `:memory:` connection) is an association list from
  table name to table, in creation order (`sqlite_master` enumeration order);
* a parsed dataframe (`pd.read_csv` output) is a list of (column name,
  column type) pairs plus rows of cell values;
* the two external effectful calls of `execute_sql_statement` —
  `pd.read_sql_query` and `mp.track` — are passed in as explicit outcome
  parameters (`query : Except String Table`, `track : Bool → Except String Unit`;
  the `Bool` is the only varying field of the tracked payload,
  `"Rows Returned"`), and a raised Python exception is an `Except.error`;
* `pandas.DataFrame.to_sql` is called without `if_exists`, whose default is
  `fail`: it raises when a table of that name already exists, and otherwise
  creates the table with the dataframe's (already renamed) columns.
-/

/-- Cell values appearing in a loaded table.  Strings and integers suffice
for the behaviour modelled here; rendering follows Python `repr`. -/
inductive Value where
  | str (s : String)
  | int (n : Int)
deriving DecidableEq

/-- One SQLite table: its columns (name and declared type, in order) and its
rows (each row has one value per column, in column order). -/
structure Table where
  columns : List (String × String)
  rows : List (List Value)
deriving DecidableEq

/-- The in-memory store: table name to table, in creation order. -/
abbrev Store := List (String × Table)

/-- One parsed uploaded file body, the result of `pd.read_csv`. -/
structure DataFrame where
  cols : List (String × String)
  rows : List (List Value)
deriving DecidableEq

/-- One uploaded file: its filename and its parsed content. -/
structure UploadedFile where
  name : String
  df : DataFrame
deriving DecidableEq

/-- Python `s.replace(' ', '_')` for a single-character pattern: every space
becomes an underscore (index.py lines 65 and 108). -/
def normName (s : String) : String :=
  String.mk (s.data.map (fun c => if c == Char.ofNat 32 then Char.ofNat 95 else c))

/-- Python `file.name.split('.')[0]` (index.py line 109): the filename up to,
not including, its first dot; the whole name when it has no dot. -/
def tableNameOf (s : String) : String :=
  String.mk (s.data.takeWhile (fun c => c != Char.ofNat 46))

/-- Python `str.lower()` on the ASCII type names SQLite produces. -/
def lowerStr (s : String) : String :=
  String.mk (s.data.map Char.toLower)

/-- Whether the first list starts with the second list. -/
def isPrefixChars : List Char → List Char → Bool
  | [], _ => true
  | _ :: _, [] => false
  | a :: as, b :: bs => a == b && isPrefixChars as bs

/-- Whether the second list occurs as a contiguous run inside the first. -/
def hasSubChars (needle : List Char) : List Char → Bool
  | [] => needle.isEmpty
  | c :: rest => isPrefixChars needle (c :: rest) || hasSubChars needle rest

/-- Python substring test `needle in hay`. -/
def containsSub (hay needle : String) : Bool :=
  hasSubChars needle.data hay.data

/-- A single-quote character, as used by Python `repr` of a string. -/
def squote : String := String.singleton (Char.ofNat 39)

/-- Python `repr` of one cell value. -/
def pyReprValue : Value → String
  | Value.str s => squote ++ s ++ squote
  | Value.int n => toString n

/-- Join strings with the separator Python tuple `repr` uses. -/
def commaJoin : List String → String
  | [] => ""
  | [s] => s
  | s :: rest => s ++ ", " ++ commaJoin rest

/-- Python `repr` of a tuple of cell values (`()`, `('x',)`, `('x', 1)`). -/
def pyTupleRepr : List Value → String
  | [] => "()"
  | [v] => "(" ++ pyReprValue v ++ ",)"
  | vs => "(" ++ commaJoin (vs.map pyReprValue) ++ ")"

/-- Rendering of `cursor.fetchone()` inside an f-string: the first row as a
Python tuple, or `None` when the query returned no row. -/
def pyReprFetch : Option (List Value) → String
  | none => "None"
  | some r => pyTupleRepr r

/-- Embedding of `drop_all_tables` (index.py lines 41-48): list the names of
all tables, then drop each listed table in turn. -/
def drop_all_tables (store : Store) : Store :=
  (store.map Prod.fst).foldl (fun s n => s.filter (fun p => p.1 != n)) store

/-- The store entry `step_1` creates for one uploaded file (index.py lines
107-111): column names space-normalised, table name from the filename. -/
def entryOf (f : UploadedFile) : String × Table :=
  (tableNameOf f.name, ⟨f.df.cols.map (fun c => (normName c.1, c.2)), f.df.rows⟩)

/-- Embedding of one `df.to_sql(table_name, conn, index=False)` call
(index.py line 111).  `to_sql` defaults to `if_exists='fail'`: it raises a
`ValueError` when the table already exists, else appends the new table. -/
def loadFile (store : Store) (f : UploadedFile) : Except String Store :=
  if tableNameOf f.name ∈ store.map Prod.fst then
    Except.error ("Table " ++ tableNameOf f.name ++ " already exists.")
  else
    Except.ok (store ++ [entryOf f])

/-- The `for file in uploaded_files` loop of `step_1` (index.py lines
106-111): load each file in order; the first raised error aborts the loop. -/
def loadAll : Store → List UploadedFile → Except String Store
  | acc, [] => Except.ok acc
  | acc, f :: fs =>
    match loadFile acc f with
    | Except.ok s2 => loadAll s2 fs
    | Except.error e => Except.error e

/-- The store-mutating part of `step_1` (index.py lines 101-111): drop every
existing table, then load the uploaded batch in order. -/
def step_1_load (prior : Store) (files : List UploadedFile) : Except String Store :=
  loadAll (drop_all_tables prior) files

/-- Character class stripped by `rstrip(",\n")` (index.py line 71). -/
def isCommaNl (c : Char) : Bool := c == ',' || c == '\n'

/-- Python `s.rstrip(",\n")`: remove every trailing comma or newline. -/
def rstripCommaNl (s : String) : String :=
  String.mk ((s.data.reverse.dropWhile isCommaNl).reverse)

/-- One iteration of the column loop of `get_table_schemas_with_data`
(index.py lines 64-69): skip columns whose type contains "text"
(case-insensitive), otherwise append an indented `name type,` line. -/
def addColumnLine (acc : String) (c : String × String) : String :=
  if containsSub (lowerStr c.2) "text" then acc
  else acc ++ "    " ++ normName c.1 ++ " " ++ c.2 ++ ",\n"

/-- The pseudo-DDL block for one table (index.py lines 59, 64-71): header,
filtered column lines, trailing comma and newline stripped, closed. -/
def structuralBlock (name : String) (cols : List (String × String)) : String :=
  rstripCommaNl (cols.foldl addColumnLine ("CREATE TABLE " ++ name ++ " (\n")) ++ "\n);\n\n"

/-- The full description of one table (index.py lines 59-72): structural
block, then the `First Row Data` line for the `SELECT * ... LIMIT 1` probe. -/
def describeTable (name : String) (t : Table) : String :=
  structuralBlock name t.columns ++ "First Row Data: " ++ pyReprFetch t.rows.head? ++ "\n\n"

/-- Embedding of `get_table_schemas_with_data` (index.py lines 50-75):
concatenate the description of every table, in store order. -/
def get_table_schemas_with_data (store : Store) : String :=
  store.foldl (fun acc nt => acc ++ describeTable nt.1 nt.2) ""

/-- Embedding of `execute_sql_statement` (index.py lines 77-91).  `query` is
the outcome of `pd.read_sql_query(sql_statement, conn)`; `track b` is the
outcome of the `mp.track` call with `"Rows Returned": b`.  The `try` block
swallows any query exception; the unguarded `mp.track` in the `finally`
block lets a telemetry exception propagate; finally the function returns
`result if rows_returned else None`. -/
def execute_sql_statement (query : Except String Table)
    (track : Bool → Except String Unit) : Except String (Option Table) :=
  let rows_returned : Bool :=
    match query with
    | Except.ok result => !result.rows.isEmpty
    | Except.error _ => false
  match track rows_returned with
  | Except.error e => Except.error e
  | Except.ok _ =>
    Except.ok (match query, rows_returned with
      | Except.ok result, true => some result
      | _, _ => none)

/-- One user-visible UI emission of `step_2`. -/
inductive Msg where
  | errorMsg (s : String)
  | writeMsg (s : String)
  | codeMsg (s : String)
  | infoMsg (s : String)
  | warnMsg (s : String)
  | dataframeMsg (t : Table)
deriving DecidableEq

/-- Observable outcome of one `step_2` "Ask Question" interaction: the UI
emissions in order, whether the translator was invoked, whether
`execute_sql_statement` was invoked, and the store afterwards. -/
structure StepTwoOut where
  messages : List Msg
  translatorCalled : Bool
  sqlExecuted : Bool
  store : Store
deriving DecidableEq

/-- The missing-credential message of index.py line 136. -/
def apiKeyErrText : String :=
  "🔐  Please enter an OpenAI API key in the sidebar to proceed."

/-- The message of index.py line 152. -/
def noResultsText : String := "No results or unable to execute the query."

/-- Embedding of the "Ask Question" branch of `step_2` (index.py lines
132-154).  `translate` is `generate_sql_statement`; `runQuery` gives the
outcome of `pd.read_sql_query` for a given SQL string; `track` as in
`execute_sql_statement`.  An exception escaping `execute_sql_statement`
escapes `step_2` as well. -/
def step_2 (apiKey : String) (store : Store) (translate : String → String → String)
    (runQuery : String → Except String Table) (track : Bool → Except String Unit)
    (question : String) : Except String StepTwoOut :=
  if apiKey = "" then
    Except.ok ⟨[Msg.errorMsg apiKeyErrText], false, false, store⟩
  else
    let table_schemas := get_table_schemas_with_data store
    let sql_statement := translate question table_schemas
    if sql_statement = "" then
      Except.ok ⟨[Msg.warnMsg "Failed to generate SQL statement."], true, false, store⟩
    else
      match execute_sql_statement (runQuery sql_statement) track with
      | Except.error e => Except.error e
      | Except.ok result_df =>
        let tail : List Msg :=
          match result_df with
          | some t =>
            if t.rows.isEmpty then [Msg.infoMsg noResultsText]
            else [Msg.writeMsg "Results:", Msg.dataframeMsg t]
          | none => [Msg.infoMsg noResultsText]
        Except.ok ⟨[Msg.writeMsg "Generated SQL Query:", Msg.codeMsg sql_statement] ++ tail,
          true, true, store⟩

/-- Whether an `Except` outcome is a normal return (no raised exception). -/
def isOkE {α : Type} : Except String α → Bool
  | Except.ok _ => true
  | Except.error _ => false

deriving instance DecidableEq for Except

/-- Concrete two-file batch (distinct table names) used to exercise the
loading theorems at a concrete input. -/
def filesW : List UploadedFile :=
  [⟨"sales.csv", ⟨[("Region", "TEXT"), ("Amount", "INTEGER")],
      [[Value.str "West", Value.int 10], [Value.str "East", Value.int 20]]⟩⟩,
   ⟨"user data.csv", ⟨[("Full Name", "TEXT"), ("Age", "INTEGER")],
      [[Value.str "Ada", Value.int 36]]⟩⟩]

/-- Concrete table with one text-typed column and one row, used to exercise
the schema-description theorems at a concrete input. -/
def tblC4 : Table :=
  ⟨[("Full Name", "TEXT"), ("Amount", "INTEGER")], [[Value.str "West", Value.int 10]]⟩

/-- Strings append by appending their character lists. -/
theorem strDataAppend (s t : String) : (s ++ t).data = s.data ++ t.data := rfl

/-- The `dropWhile` of an append starts in the left part when the left part
has an element the predicate rejects. -/
theorem dropWhile_append_left (p : Char → Bool) :
    ∀ (a b : List Char), a.all p = false → (a ++ b).dropWhile p = a.dropWhile p ++ b
  | [], _, h => by simp at h
  | x :: xs, b, h => by
    cases hx : p x with
    | true =>
      have hxs : xs.all p = false := by
        rw [List.all_cons, hx, Bool.true_and] at h
        exact h
      simp [List.dropWhile_cons, hx]
      exact dropWhile_append_left p xs b hxs
    | false => simp [List.dropWhile_cons, hx]

/-- Stripping trailing commas and newlines from `s ++ t` leaves `s` intact
when `t` holds some character that is neither a comma nor a newline. -/
theorem rstrip_append (s t : String) (c : Char) (hc : isCommaNl c = false)
    (hm : c ∈ t.data) : rstripCommaNl (s ++ t) = s ++ rstripCommaNl t := by
  apply String.ext
  have hall : t.data.reverse.all isCommaNl = false := by
    cases hall : t.data.reverse.all isCommaNl with
    | false => rfl
    | true =>
      exfalso
      have := List.all_eq_true.mp hall c (by simpa using hm)
      rw [hc] at this
      exact Bool.noConfusion this
  show ((s ++ t).data.reverse.dropWhile isCommaNl).reverse
      = s.data ++ (t.data.reverse.dropWhile isCommaNl).reverse
  rw [strDataAppend, List.reverse_append, dropWhile_append_left _ _ _ hall,
    List.reverse_append, List.reverse_reverse]

/-- The column-line accumulator only ever appends on the right. -/
theorem addColumnLine_append (a b : String) (c : String × String) :
    addColumnLine (a ++ b) c = a ++ addColumnLine b c := by
  unfold addColumnLine
  cases h : containsSub (lowerStr c.2) "text" with
  | true => simp [h]
  | false => simp [h, String.append_assoc]

/-- A column-line fold from an appended seed factors the seed out. -/
theorem foldl_addColumnLine_factor :
    ∀ (cols : List (String × String)) (a b : String),
      cols.foldl addColumnLine (a ++ b) = a ++ cols.foldl addColumnLine b
  | [], _, _ => rfl
  | c :: cs, a, b => by
    rw [List.foldl_cons, List.foldl_cons, addColumnLine_append]
    exact foldl_addColumnLine_factor cs a (addColumnLine b c)

/-- A column-line fold from the empty seed is either empty or starts with
the four-space indentation of a column line. -/
theorem bodyShape (cols : List (String × String)) :
    cols.foldl addColumnLine "" = ""
      ∨ ∃ r, cols.foldl addColumnLine "" = "    " ++ r := by
  induction cols with
  | nil => exact Or.inl rfl
  | cons c cs ih =>
    rw [List.foldl_cons]
    cases htext : containsSub (lowerStr c.2) "text" with
    | true =>
      have h0 : addColumnLine "" c = "" := by simp [addColumnLine, htext]
      rw [h0]
      exact ih
    | false =>
      refine Or.inr ⟨(normName c.1 ++ " " ++ c.2 ++ ",\n") ++ cs.foldl addColumnLine "", ?_⟩
      have h0 : addColumnLine "" c
          = ("    " ++ (normName c.1 ++ " " ++ c.2 ++ ",\n")) ++ "" := by
        simp [addColumnLine, htext, String.append_assoc, String.append_empty]
      rw [h0, foldl_addColumnLine_factor, String.append_assoc]

/-- The column-line fold skips exactly the text-typed columns: folding over
all columns equals folding over the non-text columns only. -/
theorem foldl_addColumnLine_filter :
    ∀ (cols : List (String × String)) (init : String),
      cols.foldl addColumnLine init
        = (cols.filter (fun c => !(containsSub (lowerStr c.2) "text"))).foldl
            addColumnLine init
  | [], _ => rfl
  | c :: cs, init => by
    cases htext : containsSub (lowerStr c.2) "text" with
    | true =>
      have h0 : addColumnLine init c = init := by simp [addColumnLine, htext]
      simp only [List.foldl_cons, List.filter_cons, htext, Bool.not_true, h0]
      exact foldl_addColumnLine_filter cs init
    | false =>
      simp only [List.foldl_cons, List.filter_cons, htext, Bool.not_false]
      exact foldl_addColumnLine_filter cs (addColumnLine init c)

/-- Folding the per-name table drops over a store removes every pair whose
key is listed; listing the store's own keys therefore clears it. -/
theorem foldl_filter_keys :
    ∀ (keys : List String) (l : Store), (∀ p ∈ l, p.1 ∈ keys) →
      keys.foldl (fun s n => s.filter (fun p => p.1 != n)) l = []
  | [], l, h => by
    cases l with
    | nil => rfl
    | cons x xs => exact absurd (h x (by simp)) (by simp)
  | k :: ks, l, h => by
    rw [List.foldl_cons]
    apply foldl_filter_keys ks
    intro p hp
    have hmem : p ∈ l := List.mem_of_mem_filter hp
    have hne : p.1 ≠ k := by simpa using List.of_mem_filter hp
    rcases (by simpa using h p hmem : p.1 = k ∨ p.1 ∈ ks) with h1 | h1
    · exact absurd h1 hne
    · exact h1

/-- `drop_all_tables` empties the store, whatever it held. -/
theorem drop_all_tables_eq_nil (store : Store) : drop_all_tables store = [] := by
  apply foldl_filter_keys
  intro p hp
  exact List.mem_map_of_mem Prod.fst hp

/-- `to_sql` on a fresh table name appends the new table. -/
theorem loadFile_not_mem (store : Store) (f : UploadedFile)
    (h : tableNameOf f.name ∉ store.map Prod.fst) :
    loadFile store f = Except.ok (store ++ [entryOf f]) := by
  simp [loadFile, h]

/-- `to_sql` on an existing table name raises. -/
theorem loadFile_mem (store : Store) (f : UploadedFile)
    (h : tableNameOf f.name ∈ store.map Prod.fst) :
    loadFile store f
      = Except.error ("Table " ++ tableNameOf f.name ++ " already exists.") := by
  simp [loadFile, h]

/-- When the upload loop finishes normally, the resulting table names are
the seed's names followed by one derived name per uploaded file, in order. -/
theorem loadAll_ok_keys :
    ∀ (fs : List UploadedFile) (acc s : Store), loadAll acc fs = Except.ok s →
      s.map Prod.fst = acc.map Prod.fst ++ fs.map (fun f => tableNameOf f.name)
  | [], acc, s, h => by
    have h2 : acc = s := by simpa [loadAll] using h
    subst h2
    simp
  | f :: fs, acc, s, h => by
    by_cases hm : tableNameOf f.name ∈ acc.map Prod.fst
    · rw [loadAll, loadFile_mem acc f hm] at h
      exact absurd h (by simp)
    · rw [loadAll, loadFile_not_mem acc f hm] at h
      have h2 : loadAll (acc ++ [entryOf f]) fs = Except.ok s := h
      have := loadAll_ok_keys fs (acc ++ [entryOf f]) s h2
      simpa [entryOf, List.append_assoc] using this

/-- When the derived table names of a batch are distinct and unused in the
seed store, the upload loop succeeds and appends one table per file. -/
theorem loadAll_nodup_ok :
    ∀ (fs : List UploadedFile) (acc : Store),
      (fs.map (fun f => tableNameOf f.name)).Nodup →
      (∀ f ∈ fs, tableNameOf f.name ∉ acc.map Prod.fst) →
      loadAll acc fs = Except.ok (acc ++ fs.map entryOf)
  | [], acc, _, _ => by simp [loadAll]
  | f :: fs, acc, hnd, hdj => by
    have hm : tableNameOf f.name ∉ acc.map Prod.fst := hdj f (by simp)
    rw [loadAll, loadFile_not_mem acc f hm]
    have hnd2 : (fs.map (fun g => tableNameOf g.name)).Nodup :=
      (List.nodup_cons.mp (by simpa using hnd)).2
    have hni : tableNameOf f.name ∉ fs.map (fun g => tableNameOf g.name) :=
      (List.nodup_cons.mp (by simpa using hnd)).1
    have hdj2 : ∀ g ∈ fs, tableNameOf g.name ∉ (acc ++ [entryOf f]).map Prod.fst := by
      intro g hg hcon
      rcases (by simpa [entryOf] using hcon : tableNameOf g.name ∈ acc.map Prod.fst
          ∨ tableNameOf g.name = tableNameOf f.name) with h1 | h1
      · exact hdj g (List.mem_cons_of_mem f hg) h1
      · exact hni (h1 ▸ List.mem_map_of_mem (fun g => tableNameOf g.name) hg)
    have := loadAll_nodup_ok fs (acc ++ [entryOf f]) hnd2 hdj2
    have h3 : loadAll (acc ++ [entryOf f]) fs
        = Except.ok (acc ++ (entryOf f :: fs.map entryOf)) := by
      rw [this]
      simp [List.append_assoc]
    exact h3

/-- C2: for every batch of uploaded files with pairwise distinct normalised
table names, loading leaves the store with exactly one table per file, the
table named by the filename truncated at its first dot, and every column
name space-normalised (the shape of `entryOf`). -/
theorem claim_load_creates_one_table_per_file (prior : Store)
    (files : List UploadedFile)
    (hnd : (files.map (fun f => tableNameOf f.name)).Nodup) :
    step_1_load prior files = Except.ok (files.map entryOf) := by
  unfold step_1_load
  rw [drop_all_tables_eq_nil]
  simpa using loadAll_nodup_ok files [] hnd (by intro f _; simp)

/-- Witness for C2 at a concrete two-file batch. -/
theorem claim_load_creates_one_table_per_file_w :
    (filesW.map (fun f => tableNameOf f.name)).Nodup ∧
    step_1_load [("old", ⟨[], []⟩)] filesW = Except.ok (filesW.map entryOf) :=
  ⟨by decide, claim_load_creates_one_table_per_file [("old", ⟨[], []⟩)] filesW (by decide)⟩

/-- C3: loading a batch first drops every existing table, so the outcome is
independent of the prior store, and on success the store holds exactly the
tables derived from the new batch, in order. -/
theorem claim_load_replaces_previous_tables (prior : Store)
    (files : List UploadedFile) :
    step_1_load prior files = step_1_load [] files ∧
    ∀ s, step_1_load prior files = Except.ok s →
      s.map Prod.fst = files.map (fun f => tableNameOf f.name) := by
  constructor
  · unfold step_1_load
    rw [drop_all_tables_eq_nil, drop_all_tables_eq_nil]
  · intro s hs
    unfold step_1_load at hs
    rw [drop_all_tables_eq_nil] at hs
    simpa using loadAll_ok_keys files [] s hs

/-- Witness for C3 at a concrete prior store and batch. -/
theorem claim_load_replaces_previous_tables_w :
    (step_1_load [("old", ⟨[], []⟩)] filesW = step_1_load [] filesW) ∧
    (filesW.map entryOf).map Prod.fst = filesW.map (fun f => tableNameOf f.name) :=
  ⟨(claim_load_replaces_previous_tables [("old", ⟨[], []⟩)] filesW).1,
   (claim_load_replaces_previous_tables [("old", ⟨[], []⟩)] filesW).2
     (filesW.map entryOf) (by decide)⟩

/-- C5 fails on the code: two files whose names normalise to the same table
name make the load raise (`to_sql` defaults to `if_exists='fail'`), rather
than silently replacing the earlier table. -/
theorem claim_duplicate_names_cex :
    isOkE (step_1_load []
      [⟨"a.csv", ⟨[("X", "INTEGER")], [[Value.int 1]]⟩⟩,
       ⟨"a.json.csv", ⟨[("X", "INTEGER")], [[Value.int 2]]⟩⟩]) = false := by decide

/-- The upload loop over an appended batch runs the first part, then — if
that part raised no error — the second part from the reached store. -/
theorem loadAll_append : ∀ (l1 l2 : List UploadedFile) (acc : Store),
    loadAll acc (l1 ++ l2) = match loadAll acc l1 with
      | Except.ok s => loadAll s l2
      | Except.error e => Except.error e
  | [], _, _ => rfl
  | f :: l1, l2, acc => by
    rw [List.cons_append, loadAll]
    cases hlf : loadFile acc f with
    | error e => rw [loadAll, hlf]
    | ok s2 =>
      rw [loadAll, hlf]
      exact loadAll_append l1 l2 s2

/-- C5 as amended: whenever a batch contains, anywhere, an earlier file and
a later file whose names normalise to the same table name, the load raises
an error instead of succeeding. -/
theorem claim_duplicate_names_load_fails (prior : Store)
    (pre mid post : List UploadedFile) (f g : UploadedFile)
    (h : tableNameOf f.name = tableNameOf g.name) :
    isOkE (step_1_load prior (pre ++ f :: mid ++ g :: post)) = false := by
  unfold step_1_load
  rw [drop_all_tables_eq_nil, loadAll_append, loadAll_append]
  cases hpre : loadAll [] pre with
  | error e => rfl
  | ok s1 =>
    show isOkE (match loadAll s1 (f :: mid) with
      | Except.ok s => loadAll s (g :: post)
      | Except.error e => Except.error e) = false
    rw [loadAll]
    by_cases hm : tableNameOf f.name ∈ s1.map Prod.fst
    · rw [loadFile_mem s1 f hm]
      rfl
    · rw [loadFile_not_mem s1 f hm]
      show isOkE (match loadAll (s1 ++ [entryOf f]) mid with
        | Except.ok s => loadAll s (g :: post)
        | Except.error e => Except.error e) = false
      cases hmid : loadAll (s1 ++ [entryOf f]) mid with
      | error e => rfl
      | ok s2 =>
        have hmem : tableNameOf g.name ∈ s2.map Prod.fst := by
          rw [loadAll_ok_keys mid (s1 ++ [entryOf f]) s2 hmid]
          apply List.mem_append_left
          rw [List.map_append]
          apply List.mem_append_right
          simp [entryOf, h.symm]
        show isOkE (loadAll s2 (g :: post)) = false
        rw [loadAll, loadFile_mem s2 g hmem]
        rfl

/-- Witness for the amended C5 at a concrete batch whose colliding pair sits
in the middle, after an unrelated file. -/
theorem claim_duplicate_names_load_fails_w :
    (tableNameOf "a.csv" = tableNameOf "a.txt") ∧
    isOkE (step_1_load [] ([⟨"x.csv", ⟨[("X", "INTEGER")], []⟩⟩] ++
      ⟨"a.csv", ⟨[("X", "INTEGER")], [[Value.int 1]]⟩⟩ ::
      [] ++ ⟨"a.txt", ⟨[("X", "INTEGER")], [[Value.int 2]]⟩⟩ :: [])) = false :=
  ⟨by decide, claim_duplicate_names_load_fails [] [⟨"x.csv", ⟨[("X", "INTEGER")], []⟩⟩]
    [] [] ⟨"a.csv", ⟨[("X", "INTEGER")], [[Value.int 1]]⟩⟩
    ⟨"a.txt", ⟨[("X", "INTEGER")], [[Value.int 2]]⟩⟩ (by decide)⟩

/-- C1: a raised SQL-execution exception is observably identical to a valid
query returning zero rows — same track call, same returned value — and when
telemetry succeeds that shared value is the absent outcome `none`. -/
theorem claim_execute_error_eq_empty (e : String) (cols : List (String × String))
    (track : Bool → Except String Unit) :
    execute_sql_statement (Except.error e) track
      = execute_sql_statement (Except.ok ⟨cols, []⟩) track ∧
    execute_sql_statement (Except.error e) (fun _ => Except.ok ()) = Except.ok none :=
  ⟨rfl, rfl⟩

/-- C9 fails on the code: the `mp.track` call in the `finally` block is not
guarded, so a telemetry failure propagates out of `execute_sql_statement`
even when the query itself succeeded with rows. -/
theorem claim_execute_track_failure_cex :
    isOkE (execute_sql_statement
      (Except.ok ⟨[("X", "INTEGER")], [[Value.int 1]]⟩)
      (fun _ => Except.error "telemetry failure")) = false := rfl

/-- C9 as amended: whenever the telemetry call returns normally, the query
executor completes and returns without raising, whatever the SQL outcome
(SQL exceptions never escape); a telemetry failure, however, propagates. -/
theorem claim_execute_ok_when_track_ok (query : Except String Table)
    (track : Bool → Except String Unit) (h : ∀ b, track b = Except.ok ()) :
    isOkE (execute_sql_statement query track) = true := by
  simp [execute_sql_statement, h, isOkE]

/-- Witness for the amended C9 at a failing query and healthy telemetry. -/
theorem claim_execute_ok_when_track_ok_w :
    isOkE (execute_sql_statement (Except.error "syntax error")
      (fun _ => Except.ok ())) = true :=
  claim_execute_ok_when_track_ok (Except.error "syntax error")
    (fun _ => Except.ok ()) (fun _ => rfl)

/-- C10: the executor returns a table exactly when the query succeeded with
at least one row (and the tracked telemetry call returned normally); in
particular a returned table is never empty. -/
theorem claim_execute_some_iff_nonempty (query : Except String Table)
    (track : Bool → Except String Unit) (t : Table) :
    execute_sql_statement query track = Except.ok (some t) ↔
      (query = Except.ok t ∧ t.rows ≠ [] ∧ track true = Except.ok ()) := by
  cases query with
  | error e =>
    cases htr : track false with
    | error e2 => simp [execute_sql_statement, htr]
    | ok u => simp [execute_sql_statement, htr]
  | ok r =>
    by_cases hr : r.rows = []
    · have hre : r.rows.isEmpty = true := by simp [hr]
      cases htr : track false with
      | error e2 =>
        simp only [execute_sql_statement, hre, Bool.not_true, htr]
        constructor
        · intro hcon
          exact absurd hcon (by simp)
        · rintro ⟨h1, h2, _⟩
          exact absurd (by rw [← (Except.ok.injEq r t).mp h1]; exact hr) h2
      | ok u =>
        simp only [execute_sql_statement, hre, Bool.not_true, htr]
        constructor
        · intro hcon
          exact absurd hcon (by simp)
        · rintro ⟨h1, h2, _⟩
          exact absurd (by rw [← (Except.ok.injEq r t).mp h1]; exact hr) h2
    · have hre : r.rows.isEmpty = false := by simpa using hr
      cases htr : track true with
      | error e2 =>
        simp only [execute_sql_statement, hre, Bool.not_false, htr]
        constructor
        · intro hcon
          exact absurd hcon (by simp)
        · rintro ⟨_, _, h3⟩
          exact absurd h3 (by simp)
      | ok u =>
        simp only [execute_sql_statement, hre, Bool.not_false, htr]
        constructor
        · intro hcon
          have hrt : r = t := by simpa using hcon
          exact ⟨by rw [hrt], by rw [← hrt]; exact hr, by trivial⟩
        · rintro ⟨h1, _, _⟩
          have hrt : r = t := (Except.ok.injEq r t).mp h1
          simp [hrt]

/-- C6: asking a question with no API key configured emits the
missing-credential error and returns at once — the translator is never
consulted, no SQL is generated or executed, and the store is unchanged
(the outcome does not depend on `translate`, `runQuery` or `track`). -/
theorem claim_missing_api_key_short_circuits (store : Store)
    (translate : String → String → String) (runQuery : String → Except String Table)
    (track : Bool → Except String Unit) (question : String) :
    step_2 "" store translate runQuery track question
      = Except.ok ⟨[Msg.errorMsg apiKeyErrText], false, false, store⟩ := rfl

/-- C7: when the translator yields an empty SQL string, `step_2` surfaces
only the distinct failed-to-generate warning and never invokes the query
executor (the outcome does not depend on `runQuery` or `track`). -/
theorem claim_empty_sql_warns (apiKey : String) (store : Store)
    (translate : String → String → String) (runQuery : String → Except String Table)
    (track : Bool → Except String Unit) (question : String)
    (hk : apiKey ≠ "")
    (ht : translate question (get_table_schemas_with_data store) = "") :
    step_2 apiKey store translate runQuery track question
      = Except.ok ⟨[Msg.warnMsg "Failed to generate SQL statement."], true, false, store⟩ := by
  simp [step_2, hk, ht]

/-- Witness for C7 with a translator that returns the empty string. -/
theorem claim_empty_sql_warns_w :
    (("k" : String) ≠ "") ∧
    step_2 "k" [] (fun _ _ => "") (fun _ => Except.error "offline")
        (fun _ => Except.ok ()) "q"
      = Except.ok ⟨[Msg.warnMsg "Failed to generate SQL statement."], true, false, []⟩ :=
  ⟨by decide, claim_empty_sql_warns "k" [] (fun _ _ => "")
    (fun _ => Except.error "offline") (fun _ => Except.ok ()) "q" (by decide) rfl⟩

/-- C4: the structural pseudo-DDL block is built from the non-text-typed
columns alone (folding over all columns equals folding over the columns
whose type lacks "text" case-insensitively), while the `First Row Data`
line renders the whole first row — every column's value — whenever the
table has at least one row. -/
theorem claim_describe_excludes_text_types (name : String) (t : Table)
    (r : List Value) (rest : List (List Value)) (h : t.rows = r :: rest) :
    structuralBlock name t.columns
      = structuralBlock name
          (t.columns.filter (fun c => !(containsSub (lowerStr c.2) "text"))) ∧
    describeTable name t
      = structuralBlock name t.columns ++ "First Row Data: " ++ pyTupleRepr r ++ "\n\n" := by
  constructor
  · unfold structuralBlock
    rw [foldl_addColumnLine_filter]
  · unfold describeTable
    rw [h]
    rfl

/-- Witness for C4 at a concrete table holding a text column and a row. -/
theorem claim_describe_excludes_text_types_w :
    structuralBlock "sales" tblC4.columns
      = structuralBlock "sales"
          (tblC4.columns.filter (fun c => !(containsSub (lowerStr c.2) "text"))) ∧
    describeTable "sales" tblC4
      = structuralBlock "sales" tblC4.columns ++ "First Row Data: "
          ++ pyTupleRepr [Value.str "West", Value.int 10] ++ "\n\n" :=
  claim_describe_excludes_text_types "sales" tblC4 [Value.str "West", Value.int 10] [] rfl

/-- C8: describing a table with zero rows still yields a complete structural
block — header, an optional column body with the trailing comma and newline
stripped, the closing parenthesis — followed by an explicit
`First Row Data: None` line rather than omitting the line. -/
theorem claim_describe_empty_table_complete (name : String)
    (cols : List (String × String)) :
    ∃ mid, describeTable name ⟨cols, []⟩
      = "CREATE TABLE " ++ name ++ " (" ++ mid ++ "\n);\n\n"
          ++ "First Row Data: None\n\n" := by
  have hlit : ("First Row Data: " : String) ++ ("None" ++ "\n\n")
      = "First Row Data: None\n\n" := by decide
  have hfold : cols.foldl addColumnLine ("CREATE TABLE " ++ name ++ " (\n")
      = ("CREATE TABLE " ++ name) ++ (" (\n" ++ cols.foldl addColumnLine "") := by
    have h2 := foldl_addColumnLine_factor cols " (\n" ""
    rw [String.append_empty] at h2
    rw [foldl_addColumnLine_factor cols ("CREATE TABLE " ++ name) " (\n", h2]
  have hdesc : describeTable name ⟨cols, []⟩
      = rstripCommaNl (cols.foldl addColumnLine ("CREATE TABLE " ++ name ++ " (\n"))
          ++ "\n);\n\n" ++ "First Row Data: " ++ "None" ++ "\n\n" := rfl
  rcases bodyShape cols with hb | ⟨r2, hb⟩
  · refine ⟨"", ?_⟩
    rw [hdesc, hfold, hb, String.append_empty,
      rstrip_append ("CREATE TABLE " ++ name) " (\n" (Char.ofNat 32) (by decide) (by decide),
      show rstripCommaNl " (\n" = " (" from by decide]
    simp only [String.append_assoc, String.append_empty, String.empty_append, hlit]
  · refine ⟨rstripCommaNl ("\n" ++ ("    " ++ r2)), ?_⟩
    have hmem1 : Char.ofNat 32 ∈ (" (\n" ++ ("    " ++ r2)).data :=
      List.mem_append_left _ (by decide)
    have hmem2 : Char.ofNat 32 ∈ ("\n" ++ ("    " ++ r2)).data :=
      List.mem_append_right _ (List.mem_append_left _ (by decide))
    rw [hdesc, hfold, hb,
      rstrip_append ("CREATE TABLE " ++ name) (" (\n" ++ ("    " ++ r2))
        (Char.ofNat 32) (by decide) hmem1,
      show (" (\n" : String) = " (" ++ "\n" from by decide,
      String.append_assoc " (" "\n" ("    " ++ r2),
      rstrip_append " (" ("\n" ++ ("    " ++ r2)) (Char.ofNat 32) (by decide) hmem2]
    simp only [String.append_assoc, hlit]
